import Mathlib

/-!
Shallow embedding of the reward-center buy/settlement flow
(`src/program/src/listings/buy/mod.rs`).

The settlement handler composes three auction-house adapter calls
(deposit, public buy, execute sale) under the reward center's delegated
signer seeds and then disburses reward payouts to buyer and seller,
gated by the treasury token balance.  External calls (CPIs), whose
outcomes depend on the foreign auction-house program, are modelled by an
environment (`World`) that fixes each call's result; the handler is a
function producing the trace of performed actions plus its `Result`.
-/

namespace RewardCenterBuy

/-- Errors surfaced by the buy flow: the typed reward-center errors used in
the account constraints, Anchor's untyped constraint failure, and opaque
error codes propagated unmodified from external calls. -/
inductive Err where
  | mintMismatch
  | buyerTokenAccountMismatch
  | sellerTokenAccountMismatch
  | constraintRaw
  | external (code : Nat)
  deriving DecidableEq, Repr

/-- One PDA seed: either a literal byte string or a reference to a 32-byte
public key (keys are abstracted as naturals). -/
inductive Seed where
  | bytes (bs : List Nat)
  | key (k : Nat)
  deriving DecidableEq, Repr

/-- Little-endian 8-byte serialization of a u64 value, as produced by
Rust's `u64::to_le_bytes`. -/
def u64le (n : Nat) : List Nat :=
  [n % 256, n / 256 % 256, n / 256 ^ 2 % 256, n / 256 ^ 3 % 256,
   n / 256 ^ 4 % 256, n / 256 ^ 5 % 256, n / 256 ^ 6 % 256, n / 256 ^ 7 % 256]

/-- `u64::MAX`, the maximum sentinel price used in auctioneer sell orders. -/
def U64MAX : Nat := 2 ^ 64 - 1

/-- ASCII bytes of a string constant used as a seed. -/
def strBytes (s : String) : List Nat := s.data.map Char.toNat

/-- The auction-house program's namespace tag (`mpl_auction_house`
constant `PREFIX`). -/
def ahNamespaceBytes : List Nat := strBytes "auction_house"

/-- Modelled from the spec: the reward-center namespace tag (the
`REWARD_CENTER` constant lives in the program's `constants` module, which
is not part of the available sources; the spec calls it the
"reward-center namespace tag"). -/
def rewardCenterBytes : List Nat := strBytes "reward_center"

/-- The listing record, as read by the handler: negotiated price, quantity
("token size") and its stored bump. -/
structure Listing where
  price : Nat
  tokenSize : Nat
  bump : Nat

/-- The reward center configuration consumed by settlement: the configured
reward-token mint, the stored derivation bump, and its payout-split
computation.  The `payouts` field is modelled from the spec:
`payouts(price) -> (sellerAmount, buyerAmount)` is a method of the
state module, which is not part of the available sources; the settlement
handler treats it as an opaque fallible computation, so it is kept
abstract here. -/
structure RewardCenter where
  tokenMint : Nat
  bump : Nat
  payouts : Nat → Except Err (Nat × Nat)

/-- An SPL token account: its address, mint, owner, and balance. -/
structure TokenAccount where
  key : Nat
  mint : Nat
  owner : Nat
  amount : Nat
  deriving DecidableEq, Repr

/-- The accounts of the `BuyListing` instruction that the constraints and
the handler body inspect.  Keys are abstract naturals. -/
structure BuyListing where
  buyer : Nat
  seller : Nat
  buyerRewardTokenAccount : TokenAccount
  sellerRewardTokenAccount : TokenAccount
  listing : Listing
  tokenAccount : TokenAccount
  tokenMint : Nat
  treasuryMint : Nat
  auctionHouseKey : Nat
  rewardCenter : RewardCenter
  rewardCenterRewardTokenAccount : TokenAccount

/-- The instruction parameters: the five caller-supplied derivation bumps. -/
structure BuyListingParams where
  buyerTradeStateBump : Nat
  escrowPaymentBump : Nat
  freeTradeStateBump : Nat
  sellerTradeStateBump : Nat
  programAsSignerBump : Nat
  deriving DecidableEq, Repr

/-- Outcomes of the external calls made by the handler: `none` means the
call succeeds, `some e` that it fails with error `e`.  This models the
foreign auction-house program and SPL token program as an environment. -/
structure World where
  metadataValid : Option Err
  depositResult : Option Err
  publicBuyResult : Option Err
  executeSaleResult : Option Err
  buyerTransferResult : Option Err
  reloadResult : Option Err
  sellerTransferResult : Option Err

/-- Observable actions the handler performs, in order.  Each external call
carries the signer seeds it is signed with, and its arguments as passed in
the source. -/
inductive Action where
  | assertMetadataValid
  | deposit (signer : List Seed) (escrowPaymentBump amount : Nat)
  | publicBuy (signer : List Seed)
      (buyerTradeStateBump escrowPaymentBump buyerPrice tokenSize : Nat)
  | executeSale (signer : List Seed)
      (escrowPaymentBump programAsSignerBump tokenSize buyerPrice freeTradeStateBump : Nat)
  | transferReward (signer : List Seed) (source dest amount : Nat)
  | reloadTreasury
  deriving DecidableEq, Repr

/-- The reward center's delegated signer seeds, as built at the top of the
handler: `[REWARD_CENTER, auction_house_key, [reward_center.bump]]`. -/
def rewardCenterSignerSeeds (a : BuyListing) : List Seed :=
  [Seed.bytes rewardCenterBytes, Seed.key a.auctionHouseKey,
   Seed.bytes [a.rewardCenter.bump]]

/-- Seeds of the buyer trade state PDA (`buyer_trade_state` account
attribute): auction-house namespace, buyer, auction house, treasury mint,
token mint, `listing.price` LE bytes, `listing.token_size` LE bytes. -/
def buyerTradeStateSeeds (a : BuyListing) : List Seed :=
  [Seed.bytes ahNamespaceBytes, Seed.key a.buyer, Seed.key a.auctionHouseKey,
   Seed.key a.treasuryMint, Seed.key a.tokenMint,
   Seed.bytes (u64le a.listing.price), Seed.bytes (u64le a.listing.tokenSize)]

/-- Seeds of the standing seller trade state PDA (`seller_trade_state`):
auction-house namespace, seller, auction house, token account, treasury
mint, token mint, `u64::MAX` LE bytes, `listing.token_size` LE bytes. -/
def sellerTradeStateSeeds (a : BuyListing) : List Seed :=
  [Seed.bytes ahNamespaceBytes, Seed.key a.seller, Seed.key a.auctionHouseKey,
   Seed.key a.tokenAccount.key, Seed.key a.treasuryMint, Seed.key a.tokenMint,
   Seed.bytes (u64le U64MAX), Seed.bytes (u64le a.listing.tokenSize)]

/-- Seeds of the free seller trade state PDA (`free_seller_trade_state`):
like the standing seller trade state but with price fixed to zero. -/
def freeSellerTradeStateSeeds (a : BuyListing) : List Seed :=
  [Seed.bytes ahNamespaceBytes, Seed.key a.seller, Seed.key a.auctionHouseKey,
   Seed.key a.tokenAccount.key, Seed.key a.treasuryMint, Seed.key a.tokenMint,
   Seed.bytes (u64le 0), Seed.bytes (u64le a.listing.tokenSize)]

/-- Anchor account validation of the `BuyListing` context: the declared
`constraint = ...` checks in field order, each with its declared error
(`constraintRaw` for the one constraint without an `@ error`).  PDA
`seeds`/`has_one`/`address` checks, whose derivations go through a hash,
are represented by the explicit seed-tuple definitions above instead. -/
def accessControl (a : BuyListing) : Option Err :=
  if a.rewardCenter.tokenMint ≠ a.buyerRewardTokenAccount.mint then
    some Err.mintMismatch
  else if a.buyerRewardTokenAccount.owner ≠ a.buyer then
    some Err.buyerTokenAccountMismatch
  else if a.buyerRewardTokenAccount.mint ≠ a.sellerRewardTokenAccount.mint then
    some Err.mintMismatch
  else if a.sellerRewardTokenAccount.owner ≠ a.seller then
    some Err.sellerTokenAccountMismatch
  else if a.tokenAccount.owner ≠ a.seller then
    some Err.constraintRaw
  else if a.tokenAccount.mint ≠ a.tokenMint then
    some Err.mintMismatch
  else if a.rewardCenter.tokenMint ≠ a.rewardCenterRewardTokenAccount.mint then
    some Err.mintMismatch
  else
    none

/-- The seller half of the payout phase: `reload()` the treasury token
account, re-read its balance, and transfer `seller_payout` to the seller's
reward account when positive and covered, propagating a transfer error. -/
def sellerPhase (w : World) (a : BuyListing) (ss : List Seed)
    (sellerPayout : Nat) (t : List Action) (balance : Nat) :
    List Action × Except Err Unit :=
  match w.reloadResult with
  | some e => (t ++ [Action.reloadTreasury], Except.error e)
  | none =>
    let t1 := t ++ [Action.reloadTreasury]
    if 0 < sellerPayout ∧ sellerPayout ≤ balance then
      let t2 := t1 ++ [Action.transferReward ss
        a.rewardCenterRewardTokenAccount.key a.sellerRewardTokenAccount.key
        sellerPayout]
      match w.sellerTransferResult with
      | some e => (t2, Except.error e)
      | none => (t2, Except.ok ())
    else (t1, Except.ok ())

/-- The handler body of `buy_listing` (`handler` in the source): metadata
assertion, then the three auctioneer CPI calls (deposit, public buy,
execute sale) signed with the reward-center signer seeds, then the payout
phase.  Every `?` in the source is a `match` propagating an environment
error; the trace records the calls actually made. -/
def handler (w : World) (a : BuyListing) (p : BuyListingParams) :
    List Action × Except Err Unit :=
  let ss := rewardCenterSignerSeeds a
  let listingPrice := a.listing.price
  let tokenSize := a.listing.tokenSize
  match w.metadataValid with
  | some e => ([Action.assertMetadataValid], Except.error e)
  | none =>
    let t1 := [Action.assertMetadataValid,
               Action.deposit ss p.escrowPaymentBump listingPrice]
    match w.depositResult with
    | some e => (t1, Except.error e)
    | none =>
      let t2 := t1 ++ [Action.publicBuy ss p.buyerTradeStateBump
        p.escrowPaymentBump listingPrice tokenSize]
      match w.publicBuyResult with
      | some e => (t2, Except.error e)
      | none =>
        let t3 := t2 ++ [Action.executeSale ss p.escrowPaymentBump
          p.programAsSignerBump tokenSize listingPrice p.freeTradeStateBump]
        match w.executeSaleResult with
        | some e => (t3, Except.error e)
        | none =>
          match a.rewardCenter.payouts listingPrice with
          | Except.error e => (t3, Except.error e)
          | Except.ok (sellerPayout, buyerPayout) =>
            let balance := a.rewardCenterRewardTokenAccount.amount
            if 0 < buyerPayout ∧ buyerPayout ≤ balance then
              let t4 := t3 ++ [Action.transferReward ss
                a.rewardCenterRewardTokenAccount.key
                a.buyerRewardTokenAccount.key buyerPayout]
              match w.buyerTransferResult with
              | some e => (t4, Except.error e)
              | none => sellerPhase w a ss sellerPayout t4 (balance - buyerPayout)
            else
              sellerPhase w a ss sellerPayout t3 balance

/-- The whole `BuyListing` instruction: Anchor account validation first
(rejecting with no action performed), then the handler body. -/
def buyListing (w : World) (a : BuyListing) (p : BuyListingParams) :
    List Action × Except Err Unit :=
  match accessControl a with
  | some e => ([], Except.error e)
  | none => handler w a p

/-- The fixed trace of the trade-execution phase when it completes: the
metadata assertion and the three adapter calls with their arguments. -/
def tradePhaseTrace (a : BuyListing) (p : BuyListingParams) : List Action :=
  [Action.assertMetadataValid,
   Action.deposit (rewardCenterSignerSeeds a) p.escrowPaymentBump a.listing.price,
   Action.publicBuy (rewardCenterSignerSeeds a) p.buyerTradeStateBump
     p.escrowPaymentBump a.listing.price a.listing.tokenSize,
   Action.executeSale (rewardCenterSignerSeeds a) p.escrowPaymentBump
     p.programAsSignerBump a.listing.tokenSize a.listing.price
     p.freeTradeStateBump]

/-- Whether an action is one of the three auction-house adapter calls. -/
def isAdapterCall : Action → Bool
  | Action.deposit _ _ _ => true
  | Action.publicBuy _ _ _ _ _ => true
  | Action.executeSale _ _ _ _ _ _ => true
  | _ => false

/-! Concrete instances used to evaluate the model on explicit inputs. -/

/-- A well-formed account context: 5%/5% payout split on price 1000,
treasury holding 1000 reward tokens. -/
def exAccounts : BuyListing :=
  { buyer := 1
    seller := 2
    buyerRewardTokenAccount := { key := 41, mint := 7, owner := 1, amount := 0 }
    sellerRewardTokenAccount := { key := 42, mint := 7, owner := 2, amount := 0 }
    listing := { price := 1000, tokenSize := 1, bump := 250 }
    tokenAccount := { key := 43, mint := 5, owner := 2, amount := 1 }
    tokenMint := 5
    treasuryMint := 6
    auctionHouseKey := 9
    rewardCenter :=
      { tokenMint := 7, bump := 252,
        payouts := fun price => Except.ok (price / 20, price / 20) }
    rewardCenterRewardTokenAccount := { key := 40, mint := 7, owner := 99, amount := 1000 } }

/-- Like `exAccounts` but with a depleted treasury of 30 reward tokens,
strictly between 0 and either computed payout of 50. -/
def exAccountsLow : BuyListing :=
  { exAccounts with
    rewardCenterRewardTokenAccount := { key := 40, mint := 7, owner := 99, amount := 30 } }

/-- Concrete instruction bumps. -/
def exParams : BuyListingParams :=
  { buyerTradeStateBump := 255, escrowPaymentBump := 254,
    freeTradeStateBump := 253, sellerTradeStateBump := 251,
    programAsSignerBump := 248 }

/-- The environment in which every external call succeeds. -/
def okWorld : World :=
  { metadataValid := none, depositResult := none, publicBuyResult := none,
    executeSaleResult := none, buyerTransferResult := none,
    reloadResult := none, sellerTransferResult := none }

/-! Theorems settling the claims. -/

/-- C3 counterexample: the claim states the buyer trade-state's derived
address uses the maximum sentinel price as its price field, but on a
listing priced 1000 the buyer trade-state seeds carry the listing price's
bytes, not `u64::MAX`'s. -/
theorem buyerTradeState_not_max_sentinel :
    ¬ (buyerTradeStateSeeds exAccounts).get? 5
        = some (Seed.bytes (u64le U64MAX)) := by
  decide

/-- C3 amended: the buyer trade-state's derived address encodes the
listing's negotiated price (not a maximum sentinel) as its price field,
with the listing's token size as the quantity field. -/
theorem buyerTradeState_encodes_listing_price (a : BuyListing) :
    (buyerTradeStateSeeds a).get? 5 = some (Seed.bytes (u64le a.listing.price))
      ∧ (buyerTradeStateSeeds a).get? 6
          = some (Seed.bytes (u64le a.listing.tokenSize)) :=
  ⟨rfl, rfl⟩

/-- C8 counterexample: the claim states the standing seller trade-state's
derived address encodes the negotiated listing price, but on a listing
priced 1000 its price field holds `u64::MAX`'s bytes, not the listing
price's. -/
theorem sellerTradeState_not_listing_price :
    ¬ (sellerTradeStateSeeds exAccounts).get? 6
        = some (Seed.bytes (u64le exAccounts.listing.price)) := by
  decide

/-- C8 amended: the standing seller trade-state's derived address encodes
the maximum sentinel price `u64::MAX`, and the free seller trade-state's
derived address encodes a price fixed to zero, both with the listing's
token size as the quantity field. -/
theorem sellerTradeState_encodings (a : BuyListing) :
    (sellerTradeStateSeeds a).get? 6 = some (Seed.bytes (u64le U64MAX))
      ∧ (sellerTradeStateSeeds a).get? 7
          = some (Seed.bytes (u64le a.listing.tokenSize))
      ∧ (freeSellerTradeStateSeeds a).get? 6 = some (Seed.bytes (u64le 0))
      ∧ (freeSellerTradeStateSeeds a).get? 7
          = some (Seed.bytes (u64le a.listing.tokenSize)) :=
  ⟨rfl, rfl, rfl, rfl⟩

/-- C1: after the trade-execution step completes, the payout phase
computes `(sellerPayout, buyerPayout) = payouts(listing.price)` and
evaluates the buyer payout strictly first: when `buyerPayout > 0` and the
currently read treasury balance covers it, exactly `buyerPayout` is
transferred to the buyer's reward account under the reward-center signer;
the treasury balance is then re-read (reload) and only after that re-read
is the same rule applied to the seller payout. -/
theorem payout_phase_buyer_first
    (w : World) (a : BuyListing) (p : BuyListingParams) (sp bp : Nat)
    (hmd : w.metadataValid = none) (hdep : w.depositResult = none)
    (hpb : w.publicBuyResult = none) (hes : w.executeSaleResult = none)
    (hpay : a.rewardCenter.payouts a.listing.price = Except.ok (sp, bp))
    (hbt : w.buyerTransferResult = none) (hrl : w.reloadResult = none)
    (hst : w.sellerTransferResult = none) :
    handler w a p =
      (tradePhaseTrace a p
        ++ (if 0 < bp ∧ bp ≤ a.rewardCenterRewardTokenAccount.amount then
              [Action.transferReward (rewardCenterSignerSeeds a)
                a.rewardCenterRewardTokenAccount.key
                a.buyerRewardTokenAccount.key bp]
            else [])
        ++ [Action.reloadTreasury]
        ++ (if 0 < sp ∧ sp ≤
              (if 0 < bp ∧ bp ≤ a.rewardCenterRewardTokenAccount.amount then
                a.rewardCenterRewardTokenAccount.amount - bp
              else a.rewardCenterRewardTokenAccount.amount) then
              [Action.transferReward (rewardCenterSignerSeeds a)
                a.rewardCenterRewardTokenAccount.key
                a.sellerRewardTokenAccount.key sp]
            else []),
       Except.ok ()) := by
  simp only [handler, sellerPhase, tradePhaseTrace, hmd, hdep, hpb, hes,
    hpay, hbt, hrl, hst]
  by_cases hb : 0 < bp ∧ bp ≤ a.rewardCenterRewardTokenAccount.amount <;>
    simp [hb] <;> split <;> simp_all

/-- C1 witness: on the concrete all-success scenario (price 1000, 5%/5%
split, treasury 1000) the handler emits buyer transfer of 50, reload,
seller transfer of 50 after the trade phase, and succeeds. -/
theorem payout_phase_buyer_first_witness :
    handler okWorld exAccounts exParams =
      (tradePhaseTrace exAccounts exParams
        ++ [Action.transferReward (rewardCenterSignerSeeds exAccounts) 40 41 50]
        ++ [Action.reloadTreasury]
        ++ [Action.transferReward (rewardCenterSignerSeeds exAccounts) 40 42 50],
       Except.ok ()) := by
  rw [payout_phase_buyer_first okWorld exAccounts exParams 50 50
    rfl rfl rfl rfl rfl rfl rfl rfl]
  rfl

/-- C2: when the treasury balance is strictly between 0 and the buyer
payout, the buyer payout is skipped with no transfer and no error, the
settlement still succeeds, and the seller payout is then evaluated against
the unchanged treasury balance under the same per-payout rule (under which
a balance strictly below the seller payout likewise skips it). -/
theorem treasury_skip_buyer
    (w : World) (a : BuyListing) (p : BuyListingParams) (sp bp : Nat)
    (hmd : w.metadataValid = none) (hdep : w.depositResult = none)
    (hpb : w.publicBuyResult = none) (hes : w.executeSaleResult = none)
    (hpay : a.rewardCenter.payouts a.listing.price = Except.ok (sp, bp))
    (hrl : w.reloadResult = none) (hst : w.sellerTransferResult = none)
    (_hpos : 0 < a.rewardCenterRewardTokenAccount.amount)
    (hlt : a.rewardCenterRewardTokenAccount.amount < bp) :
    handler w a p =
      (tradePhaseTrace a p ++ [Action.reloadTreasury]
        ++ (if 0 < sp ∧ sp ≤ a.rewardCenterRewardTokenAccount.amount then
              [Action.transferReward (rewardCenterSignerSeeds a)
                a.rewardCenterRewardTokenAccount.key
                a.sellerRewardTokenAccount.key sp]
            else []),
       Except.ok ()) := by
  have hb : ¬(0 < bp ∧ bp ≤ a.rewardCenterRewardTokenAccount.amount) := by
    omega
  simp only [handler, sellerPhase, tradePhaseTrace, hmd, hdep, hpb, hes,
    hpay, hrl, hst]
  simp [hb]
  split <;> simp_all

/-- C2 witness: concrete depleted-treasury scenario (treasury 30, payouts
50/50): both payouts are skipped and settlement succeeds with only the
trade phase and the reload in the trace. -/
theorem treasury_skip_buyer_witness :
    handler okWorld exAccountsLow exParams =
      (tradePhaseTrace exAccountsLow exParams ++ [Action.reloadTreasury],
       Except.ok ()) := by
  rw [treasury_skip_buyer okWorld exAccountsLow exParams 50 50
    rfl rfl rfl rfl rfl rfl rfl (by decide) (by decide)]
  rfl

/-- C4: if any of the three adapter calls fails, the handler returns that
error unmodified, performs no subsequent adapter call, and performs no
reward transfer (the resulting trace stops at the failed call). -/
theorem adapter_error_propagates
    (w : World) (a : BuyListing) (p : BuyListingParams) (e : Err) :
    (w.metadataValid = none → w.depositResult = some e →
      handler w a p =
        ([Action.assertMetadataValid,
          Action.deposit (rewardCenterSignerSeeds a) p.escrowPaymentBump
            a.listing.price],
         Except.error e)) ∧
    (w.metadataValid = none → w.depositResult = none →
     w.publicBuyResult = some e →
      handler w a p =
        ([Action.assertMetadataValid,
          Action.deposit (rewardCenterSignerSeeds a) p.escrowPaymentBump
            a.listing.price,
          Action.publicBuy (rewardCenterSignerSeeds a) p.buyerTradeStateBump
            p.escrowPaymentBump a.listing.price a.listing.tokenSize],
         Except.error e)) ∧
    (w.metadataValid = none → w.depositResult = none →
     w.publicBuyResult = none → w.executeSaleResult = some e →
      handler w a p = (tradePhaseTrace a p, Except.error e)) := by
  refine ⟨?_, ?_, ?_⟩ <;> intros <;>
    simp_all [handler, tradePhaseTrace]

/-- C4 witness: concrete runs where the deposit, public-buy, or
execute-sale call fails with a distinct opaque error code, each surfaced
unmodified as the settlement result. -/
theorem adapter_error_propagates_witness :
    (handler { okWorld with depositResult := some (Err.external 3) }
        exAccounts exParams).2 = Except.error (Err.external 3) ∧
    (handler { okWorld with publicBuyResult := some (Err.external 4) }
        exAccounts exParams).2 = Except.error (Err.external 4) ∧
    (handler { okWorld with executeSaleResult := some (Err.external 5) }
        exAccounts exParams).2 = Except.error (Err.external 5) := by
  refine ⟨?_, ?_, ?_⟩
  · rw [(adapter_error_propagates
      { okWorld with depositResult := some (Err.external 3) }
      exAccounts exParams (Err.external 3)).1 rfl rfl]
  · rw [(adapter_error_propagates
      { okWorld with publicBuyResult := some (Err.external 4) }
      exAccounts exParams (Err.external 4)).2.1 rfl rfl rfl]
  · rw [(adapter_error_propagates
      { okWorld with executeSaleResult := some (Err.external 5) }
      exAccounts exParams (Err.external 5)).2.2 rfl rfl rfl rfl]

/-- The seller payout phase performs no adapter call: filtering its trace
for adapter calls yields whatever the prior trace contained. -/
theorem sellerPhase_no_adapterCall (w : World) (a : BuyListing)
    (ss : List Seed) (sp : Nat) (t : List Action) (bal : Nat) :
    ((sellerPhase w a ss sp t bal).1).filter isAdapterCall
      = t.filter isAdapterCall := by
  unfold sellerPhase
  split
  · simp [isAdapterCall]
  · split
    · split <;> simp [isAdapterCall]
    · simp [isAdapterCall]

/-- The seller payout phase only appends to the trace it is given. -/
theorem sellerPhase_trace_extends (w : World) (a : BuyListing)
    (ss : List Seed) (sp : Nat) (t : List Action) (bal : Nat) :
    ∃ rest, (sellerPhase w a ss sp t bal).1 = t ++ rest := by
  unfold sellerPhase
  split
  · exact ⟨[Action.reloadTreasury], rfl⟩
  · split
    · split <;>
        exact ⟨[Action.reloadTreasury,
          Action.transferReward ss a.rewardCenterRewardTokenAccount.key
            a.sellerRewardTokenAccount.key sp], by simp⟩
    · exact ⟨[Action.reloadTreasury], rfl⟩

/-- C5: whenever the trade phase completes (the metadata assertion and
the three external calls succeed), the adapter calls performed are exactly
three, in order: deposit of `listing.price`, public-buy registration at
`listing.price`/`listing.token_size`, and trade execution with
`buyer_price = listing.price` and `token_size`, each signed with the
reward-center signer seeds (namespace tag, auction-house key, bump). -/
theorem three_adapter_calls
    (w : World) (a : BuyListing) (p : BuyListingParams)
    (hmd : w.metadataValid = none) (hdep : w.depositResult = none)
    (hpb : w.publicBuyResult = none) (hes : w.executeSaleResult = none) :
    ((handler w a p).1).filter isAdapterCall =
      [Action.deposit (rewardCenterSignerSeeds a) p.escrowPaymentBump
         a.listing.price,
       Action.publicBuy (rewardCenterSignerSeeds a) p.buyerTradeStateBump
         p.escrowPaymentBump a.listing.price a.listing.tokenSize,
       Action.executeSale (rewardCenterSignerSeeds a) p.escrowPaymentBump
         p.programAsSignerBump a.listing.tokenSize a.listing.price
         p.freeTradeStateBump] := by
  simp only [handler, hmd, hdep, hpb, hes]
  rcases a.rewardCenter.payouts a.listing.price with e | ⟨sp, bp⟩
  · simp [isAdapterCall]
  · simp only []
    split
    · rcases hbt : w.buyerTransferResult with _ | e <;>
        simp [hbt, sellerPhase_no_adapterCall, isAdapterCall]
    · simp [sellerPhase_no_adapterCall, isAdapterCall]

/-- C5 witness: in the concrete all-success scenario the adapter-call
subsequence of the trace is exactly the three calls with the listing's
price and token size, signed by the reward-center seeds. -/
theorem three_adapter_calls_witness :
    ((handler okWorld exAccounts exParams).1).filter isAdapterCall =
      [Action.deposit (rewardCenterSignerSeeds exAccounts) 254 1000,
       Action.publicBuy (rewardCenterSignerSeeds exAccounts) 255 254 1000 1,
       Action.executeSale (rewardCenterSignerSeeds exAccounts) 254 248 1 1000 253] := by
  rw [three_adapter_calls okWorld exAccounts exParams rfl rfl rfl rfl]
  rfl

/-- Every handler trace begins with the metadata validity assertion: it
precedes every adapter call and every reward transfer. -/
theorem handler_trace_starts_with_assert
    (w : World) (a : BuyListing) (p : BuyListingParams) :
    ∃ rest, (handler w a p).1 = Action.assertMetadataValid :: rest := by
  simp only [handler]
  rcases w.metadataValid with _ | e
  · rcases w.depositResult with _ | e
    · rcases w.publicBuyResult with _ | e
      · rcases w.executeSaleResult with _ | e
        · rcases a.rewardCenter.payouts a.listing.price with e | ⟨sp, bp⟩
          · exact ⟨_, rfl⟩
          · simp only []
            split
            · rcases w.buyerTransferResult with _ | e
              · obtain ⟨rest, hr⟩ := sellerPhase_trace_extends w a
                  (rewardCenterSignerSeeds a) sp _
                  (a.rewardCenterRewardTokenAccount.amount - bp)
                exact ⟨_, by rw [hr]; rfl⟩
              · exact ⟨_, rfl⟩
            · obtain ⟨rest, hr⟩ := sellerPhase_trace_extends w a
                (rewardCenterSignerSeeds a) sp _
                a.rewardCenterRewardTokenAccount.amount
              exact ⟨_, by rw [hr]; rfl⟩
        · exact ⟨_, rfl⟩
      · exact ⟨_, rfl⟩
    · exact ⟨_, rfl⟩
  · exact ⟨_, rfl⟩

/-- C6: the metadata validity assertion runs before any fund movement —
it is the first action of every handler run, and when it fails the handler
returns its error with no adapter call and no transfer performed. -/
theorem metadata_assert_before_fund_movement
    (w : World) (a : BuyListing) (p : BuyListingParams) (e : Err) :
    (handler w a p).1.head? = some Action.assertMetadataValid ∧
    (w.metadataValid = some e →
      handler w a p = ([Action.assertMetadataValid], Except.error e)) := by
  constructor
  · obtain ⟨rest, hr⟩ := handler_trace_starts_with_assert w a p
    rw [hr]; rfl
  · intro h
    simp [handler, h]

/-- C6 witness: a concrete run whose metadata assertion fails with an
opaque error code returns exactly that error having performed nothing but
the assertion, and the all-success run starts with the assertion. -/
theorem metadata_assert_before_fund_movement_witness :
    (handler okWorld exAccounts exParams).1.head?
        = some Action.assertMetadataValid ∧
    handler { okWorld with metadataValid := some (Err.external 2) }
        exAccounts exParams
      = ([Action.assertMetadataValid], Except.error (Err.external 2)) :=
  ⟨(metadata_assert_before_fund_movement okWorld exAccounts exParams
      (Err.external 2)).1,
   (metadata_assert_before_fund_movement
      { okWorld with metadataValid := some (Err.external 2) }
      exAccounts exParams (Err.external 2)).2 rfl⟩

/-- C7: reward-token account validation, in Anchor's declaration order:
a buyer reward account whose mint differs from the reward center's
configured mint fails with `MintMismatch`; one not owned by the buyer
fails with `BuyerTokenAccountMismatch`; a seller reward account whose
mint differs from the buyer reward account's mint fails with
`MintMismatch`; one not owned by the seller fails with
`SellerTokenAccountMismatch` — each rejection happens before the handler
body, so no action (no fund movement) is performed. -/
theorem reward_account_validation
    (w : World) (a : BuyListing) (p : BuyListingParams) :
    (a.rewardCenter.tokenMint ≠ a.buyerRewardTokenAccount.mint →
      buyListing w a p = ([], Except.error Err.mintMismatch)) ∧
    (a.rewardCenter.tokenMint = a.buyerRewardTokenAccount.mint →
     a.buyerRewardTokenAccount.owner ≠ a.buyer →
      buyListing w a p = ([], Except.error Err.buyerTokenAccountMismatch)) ∧
    (a.rewardCenter.tokenMint = a.buyerRewardTokenAccount.mint →
     a.buyerRewardTokenAccount.owner = a.buyer →
     a.buyerRewardTokenAccount.mint ≠ a.sellerRewardTokenAccount.mint →
      buyListing w a p = ([], Except.error Err.mintMismatch)) ∧
    (a.rewardCenter.tokenMint = a.buyerRewardTokenAccount.mint →
     a.buyerRewardTokenAccount.owner = a.buyer →
     a.buyerRewardTokenAccount.mint = a.sellerRewardTokenAccount.mint →
     a.sellerRewardTokenAccount.owner ≠ a.seller →
      buyListing w a p = ([], Except.error Err.sellerTokenAccountMismatch)) := by
  refine ⟨?_, ?_, ?_, ?_⟩ <;> intros <;>
    simp_all [buyListing, accessControl]

/-- C7 witness: four concrete contexts, each violating exactly one of the
reward-token account constraints, are rejected with the corresponding
typed error and an empty action trace. -/
theorem reward_account_validation_witness :
    buyListing okWorld
        { exAccounts with
          buyerRewardTokenAccount := { key := 41, mint := 8, owner := 1, amount := 0 } }
        exParams = ([], Except.error Err.mintMismatch) ∧
    buyListing okWorld
        { exAccounts with
          buyerRewardTokenAccount := { key := 41, mint := 7, owner := 3, amount := 0 } }
        exParams = ([], Except.error Err.buyerTokenAccountMismatch) ∧
    buyListing okWorld
        { exAccounts with
          sellerRewardTokenAccount := { key := 42, mint := 8, owner := 2, amount := 0 } }
        exParams = ([], Except.error Err.mintMismatch) ∧
    buyListing okWorld
        { exAccounts with
          sellerRewardTokenAccount := { key := 42, mint := 7, owner := 3, amount := 0 } }
        exParams = ([], Except.error Err.sellerTokenAccountMismatch) :=
  ⟨(reward_account_validation okWorld
      { exAccounts with
        buyerRewardTokenAccount := { key := 41, mint := 8, owner := 1, amount := 0 } }
      exParams).1 (by decide),
   (reward_account_validation okWorld
      { exAccounts with
        buyerRewardTokenAccount := { key := 41, mint := 7, owner := 3, amount := 0 } }
      exParams).2.1 rfl (by decide),
   (reward_account_validation okWorld
      { exAccounts with
        sellerRewardTokenAccount := { key := 42, mint := 8, owner := 2, amount := 0 } }
      exParams).2.2.1 rfl rfl (by decide),
   (reward_account_validation okWorld
      { exAccounts with
        sellerRewardTokenAccount := { key := 42, mint := 7, owner := 3, amount := 0 } }
      exParams).2.2.2 rfl rfl rfl (by decide)⟩

/-- C9: the asset-holding token account must be owned by the seller and
hold the asset's token mint; a violation of either constraint (given the
earlier reward-token constraints hold) is rejected during account
validation with its declared error, before the handler body runs — the
action trace is empty, so no adapter call or transfer occurs. -/
theorem token_account_validation
    (w : World) (a : BuyListing) (p : BuyListingParams)
    (h1 : a.rewardCenter.tokenMint = a.buyerRewardTokenAccount.mint)
    (h2 : a.buyerRewardTokenAccount.owner = a.buyer)
    (h3 : a.buyerRewardTokenAccount.mint = a.sellerRewardTokenAccount.mint)
    (h4 : a.sellerRewardTokenAccount.owner = a.seller) :
    (a.tokenAccount.owner ≠ a.seller →
      buyListing w a p = ([], Except.error Err.constraintRaw)) ∧
    (a.tokenAccount.owner = a.seller → a.tokenAccount.mint ≠ a.tokenMint →
      buyListing w a p = ([], Except.error Err.mintMismatch)) := by
  constructor <;> intros <;> simp_all [buyListing, accessControl]

/-- C9 witness: a context whose asset token account is owned by a third
party is rejected with the untyped constraint error, and one whose asset
token account holds a different mint is rejected with `MintMismatch`,
both with empty traces. -/
theorem token_account_validation_witness :
    buyListing okWorld
        { exAccounts with
          tokenAccount := { key := 43, mint := 5, owner := 3, amount := 1 } }
        exParams = ([], Except.error Err.constraintRaw) ∧
    buyListing okWorld
        { exAccounts with
          tokenAccount := { key := 43, mint := 9, owner := 2, amount := 1 } }
        exParams = ([], Except.error Err.mintMismatch) :=
  ⟨(token_account_validation okWorld
      { exAccounts with
        tokenAccount := { key := 43, mint := 5, owner := 3, amount := 1 } }
      exParams rfl rfl rfl rfl).1 (by decide),
   (token_account_validation okWorld
      { exAccounts with
        tokenAccount := { key := 43, mint := 9, owner := 2, amount := 1 } }
      exParams rfl rfl rfl rfl).2 rfl (by decide)⟩

/-- C10: the silent-skip rule covers only the zero-amount and
insufficient-balance guards — when a reward transfer is actually
attempted (payout positive and balance sufficient) and the transfer
itself fails, the settlement returns that error rather than skipping. -/
theorem transfer_error_not_skipped
    (w : World) (a : BuyListing) (p : BuyListingParams)
    (sp bp : Nat) (e : Err)
    (hmd : w.metadataValid = none) (hdep : w.depositResult = none)
    (hpb : w.publicBuyResult = none) (hes : w.executeSaleResult = none)
    (hpay : a.rewardCenter.payouts a.listing.price = Except.ok (sp, bp)) :
    (0 < bp → bp ≤ a.rewardCenterRewardTokenAccount.amount →
     w.buyerTransferResult = some e →
      (handler w a p).2 = Except.error e) ∧
    (w.buyerTransferResult = none → w.reloadResult = none →
     0 < sp →
     sp ≤ (if 0 < bp ∧ bp ≤ a.rewardCenterRewardTokenAccount.amount then
             a.rewardCenterRewardTokenAccount.amount - bp
           else a.rewardCenterRewardTokenAccount.amount) →
     w.sellerTransferResult = some e →
      (handler w a p).2 = Except.error e) := by
  constructor
  · intro hb1 hb2 hbt
    simp [handler, hmd, hdep, hpb, hes, hpay, hbt, hb1, hb2]
  · intro hbt hrl hs1 hs2 hst
    by_cases hb : 0 < bp ∧ bp ≤ a.rewardCenterRewardTokenAccount.amount
    · rw [if_pos hb] at hs2
      simp [handler, sellerPhase, hmd, hdep, hpb, hes, hpay, hbt, hrl, hst,
        hb, hs1, hs2]
    · rw [if_neg hb] at hs2
      simp [handler, sellerPhase, hmd, hdep, hpb, hes, hpay, hbt, hrl, hst,
        hb, hs1, hs2]

/-- C10 witness: with treasury 1000 and payouts 50/50, a failing buyer
transfer surfaces its error, and (in a separate run) a failing seller
transfer surfaces its error. -/
theorem transfer_error_not_skipped_witness :
    (handler { okWorld with buyerTransferResult := some (Err.external 9) }
        exAccounts exParams).2 = Except.error (Err.external 9) ∧
    (handler { okWorld with sellerTransferResult := some (Err.external 10) }
        exAccounts exParams).2 = Except.error (Err.external 10) :=
  ⟨(transfer_error_not_skipped
      { okWorld with buyerTransferResult := some (Err.external 9) }
      exAccounts exParams 50 50 (Err.external 9)
      rfl rfl rfl rfl rfl).1 (by decide) (by decide) rfl,
   (transfer_error_not_skipped
      { okWorld with sellerTransferResult := some (Err.external 10) }
      exAccounts exParams 50 50 (Err.external 10)
      rfl rfl rfl rfl rfl).2 rfl rfl (by decide) (by decide) rfl⟩

end RewardCenterBuy
